import Mathlib

/-!
Verification of `synaptiks.touchpad` (file `src/synaptiks/touchpad.py`).

The module is embedded shallowly:

* A device is an association list from property names to slot sequences of
  raw wire values.  Raw values (integers, bytes, floats, booleans encoded as
  0/1 on the wire) are modelled as exact rationals; float rounding is ignored,
  which the round-trip properties tolerate by construction.
* Every operation that touches the device also returns the list of wire-level
  I/O events it performs (fetches and writes), so frame properties such as
  "reads perform no writes" are statements about the emitted trace.
* Python `int()` truncation toward zero is `pytrunc`; the double constant
  `math.pi` is the exact dyadic rational value of the IEEE-754 double.
* Python exceptions become an error type: `ValueError` on a bad wire type is
  `invalidWireType`, `IndexError` on a short slot sequence is
  `slotIndexOutOfRange`, `NoTouchpadError` is `noTouchpadError`.
-/

namespace Synaptiks

/-- A wire-level scalar stored in a device property slot. -/
abbrev RawValue := ℚ

/-- A Python-level value flowing through a binding: a number or a boolean. -/
inductive Value where
  | num (q : ℚ)
  | bool (b : Bool)
deriving DecidableEq

/-- Numeric view of a value; Python booleans are the integers 0 and 1, which
is also how booleans are encoded on the wire. -/
def Value.toQ : Value → ℚ
  | .num q => q
  | .bool b => if b then 1 else 0

/-- The device state: named properties, each a sequence of raw slot values. -/
structure Device where
  props : List (String × List RawValue)
deriving DecidableEq

/-- Fetch the full slot sequence of a property, as `obj[property_name]` does. -/
def Device.getProp (dev : Device) (name : String) : Option (List RawValue) :=
  (dev.props.find? (fun p => p.1 == name)).map (fun p => p.2)

/-- Store a full slot sequence under a property name. -/
def Device.setProp (dev : Device) (name : String) (values : List RawValue) : Device :=
  if dev.props.any (fun p => p.1 == name) then
    ⟨dev.props.map (fun p => if p.1 == name then (p.1, values) else p)⟩
  else ⟨dev.props ++ [(name, values)]⟩

/-- Errors surfaced by the module (Python exceptions). -/
inductive DeviceError where
  | invalidWireType
  | slotIndexOutOfRange
  | undefinedProperty
  | noTouchpadError
  | typeError
deriving DecidableEq

/-- One wire-level interaction with the device. -/
inductive IOEvent where
  | fetch (name : String)
  | write (ptype : String) (name : String) (values : List RawValue)
deriving DecidableEq

/-- Whether an event mutates device state. -/
def IOEvent.isWrite : IOEvent → Bool
  | .fetch _ => false
  | .write _ _ _ => true

/-- Effect of one event on the device: a fetch changes nothing, a write
through one of the `set_int/byte/float/bool` setters replaces the sequence. -/
def applyEvent (dev : Device) : IOEvent → Device
  | .fetch _ => dev
  | .write _ name values => dev.setProp name values

/-- Effect of a whole trace on the device. -/
def applyTrace (dev : Device) (t : List IOEvent) : Device := t.foldl applyEvent dev

/-- The descriptor class `device_property`: an attribute mapped to one slot of
one input-device property.  The two conversion hooks default to the identity
and are overridden on some instances after construction. -/
structure device_property where
  property_name : String
  property_type : String
  item : ℕ
  convert_from_property : Value → Value := id
  convert_to_property : Value → Value := id

/-- `device_property.PROPERTY_TYPES = ('int', 'byte', 'float', 'bool')`. -/
def device_property.PROPERTY_TYPES : List String := ["int", "byte", "float", "bool"]

/-- `device_property.__init__`: raises `ValueError` (here `invalidWireType`)
when the given type is not one of the four recognized wire types.  It takes
no device argument and emits no I/O event: validation happens at
construction time, before any device I/O. -/
def device_property.init (property_name property_type : String) (item : ℕ) :
    Except DeviceError device_property :=
  if property_type ∈ device_property.PROPERTY_TYPES then
    .ok { property_name := property_name, property_type := property_type, item := item }
  else
    .error .invalidWireType

/-- How `__get__` views one raw slot value: through `bool()` when the wire
type is bool, as the bare number otherwise. -/
def decode1 (ptype : String) (q : RawValue) : Value :=
  if ptype = "bool" then .bool (decide (q ≠ 0)) else .num q

/-- The line `values = map(bool, values)` of `__get__`, applied when the wire
type is bool; otherwise the fetched numbers are used as they are. -/
def decodeSeq (ptype : String) (values : List RawValue) : List Value :=
  values.map (decode1 ptype)

/-- `device_property.__get__`: fetch the sequence, coerce every element to
boolean when the wire type is bool (nonzero is true), index the slot, and
convert.  A missing property is `undefinedProperty`; a slot index beyond the
sequence length is an `IndexError`, modelled as `slotIndexOutOfRange`. -/
def device_property.get (p : device_property) (dev : Device) :
    Except DeviceError Value × List IOEvent :=
  match dev.getProp p.property_name with
  | none => (.error .undefinedProperty, [.fetch p.property_name])
  | some values =>
    match (decodeSeq p.property_type values)[p.item]? with
    | none => (.error .slotIndexOutOfRange, [.fetch p.property_name])
    | some v => (.ok (p.convert_from_property v), [.fetch p.property_name])

/-- `device_property.__set__`: fetch the current sequence, replace the slot
with the converted value, and write the whole sequence back through the
setter matching the wire type.  The assignment `values[self.item] = ...`
raises `IndexError` (`slotIndexOutOfRange`) when the slot is out of range,
in which case no write happens. -/
def device_property.set (p : device_property) (dev : Device) (value : Value) :
    Except DeviceError Unit × List IOEvent :=
  match dev.getProp p.property_name with
  | none => (.error .undefinedProperty, [.fetch p.property_name])
  | some values =>
    if p.item < values.length then
      let newValues := values.set p.item (p.convert_to_property value).toQ
      (.ok (), [.fetch p.property_name, .write p.property_type p.property_name newValues])
    else
      (.error .slotIndexOutOfRange, [.fetch p.property_name])

instance {ε α : Type} [DecidableEq ε] [DecidableEq α] : DecidableEq (Except ε α) := fun a b =>
  match a, b with
  | .ok x, .ok y =>
    match decEq x y with
    | isTrue h => isTrue (by rw [h])
    | isFalse h => isFalse (fun hh => h (Except.ok.inj hh))
  | .ok _, .error _ => isFalse (fun hh => Except.noConfusion hh)
  | .error _, .ok _ => isFalse (fun hh => Except.noConfusion hh)
  | .error x, .error y =>
    match decEq x y with
    | isTrue h => isTrue (by rw [h])
    | isFalse h => isFalse (fun hh => h (Except.error.inj hh))

/-- The device state after performing a set: the set's trace applied. -/
def device_property.setState (p : device_property) (dev : Device) (value : Value) : Device :=
  applyTrace dev (p.set dev value).2

/-- Python `int()` on a number: truncation toward zero. -/
def pytrunc (q : ℚ) : ℤ := if 0 ≤ q then q.floor else q.ceil

/-- The exact rational value of the IEEE-754 double `math.pi`. -/
def pyPi : ℚ := 884279719003555 / 281474976710656

/-- `math.degrees`: multiply by 180/pi. -/
def math.degrees (q : ℚ) : ℚ := q * (180 / pyPi)

/-- `math.radians`: multiply by pi/180. -/
def math.radians (q : ℚ) : ℚ := q * (pyPi / 180)

/-- Python slice `xs[a:b]` for nonnegative bounds. -/
def pyslice (xs : List α) (a b : ℕ) : List α := (xs.take b).drop a

/-- `off = device_property('Synaptics Off', 'byte', 0, ...)`. -/
def off : device_property :=
  { property_name := "Synaptics Off", property_type := "byte", item := 0 }

/-- `minimum_speed`: slot 0 of the float property `Synaptics Move Speed`. -/
def minimum_speed : device_property :=
  { property_name := "Synaptics Move Speed", property_type := "float", item := 0 }

/-- `maximum_speed`: slot 1 of the float property `Synaptics Move Speed`. -/
def maximum_speed : device_property :=
  { property_name := "Synaptics Move Speed", property_type := "float", item := 1 }

/-- `acceleration_factor`: slot 2 of the float property `Synaptics Move Speed`. -/
def acceleration_factor : device_property :=
  { property_name := "Synaptics Move Speed", property_type := "float", item := 2 }

/-- `rt_tap_action`: slot 0 of the byte property `Synaptics Tap Action`. -/
def rt_tap_action : device_property :=
  { property_name := "Synaptics Tap Action", property_type := "byte", item := 0 }

/-- `rb_tap_action`: slot 1 of the byte property `Synaptics Tap Action`. -/
def rb_tap_action : device_property :=
  { property_name := "Synaptics Tap Action", property_type := "byte", item := 1 }

/-- `lt_tap_action`: slot 2 of the byte property `Synaptics Tap Action`. -/
def lt_tap_action : device_property :=
  { property_name := "Synaptics Tap Action", property_type := "byte", item := 2 }

/-- `lb_tap_action`: slot 3 of the byte property `Synaptics Tap Action`. -/
def lb_tap_action : device_property :=
  { property_name := "Synaptics Tap Action", property_type := "byte", item := 3 }

/-- `f1_tap_action`: slot 4 of the byte property `Synaptics Tap Action`. -/
def f1_tap_action : device_property :=
  { property_name := "Synaptics Tap Action", property_type := "byte", item := 4 }

/-- `f2_tap_action`: slot 5 of the byte property `Synaptics Tap Action`. -/
def f2_tap_action : device_property :=
  { property_name := "Synaptics Tap Action", property_type := "byte", item := 5 }

/-- `f3_tap_action`: slot 6 of the byte property `Synaptics Tap Action`. -/
def f3_tap_action : device_property :=
  { property_name := "Synaptics Tap Action", property_type := "byte", item := 6 }

/-- `tap_and_drag_gesture`: slot 0 of the bool property `Synaptics Gestures`. -/
def tap_and_drag_gesture : device_property :=
  { property_name := "Synaptics Gestures", property_type := "bool", item := 0 }

/-- `locked_drags`: slot 0 of the bool property `Synaptics Locked Drags`. -/
def locked_drags : device_property :=
  { property_name := "Synaptics Locked Drags", property_type := "bool", item := 0 }

/-- `locked_drags_timeout`: slot 0 of the int property
`Synaptics Locked Drags Timeout`, with overridden conversions
`convert_from_property = lambda v: v / 1000` (true division) and
`convert_to_property = lambda v: int(1000 * v)`. -/
def locked_drags_timeout : device_property :=
  { property_name := "Synaptics Locked Drags Timeout", property_type := "int", item := 0,
    convert_from_property := fun v => .num (v.toQ / 1000),
    convert_to_property := fun v => .num (pytrunc (1000 * v.toQ)) }

/-- `vertical_edge_scrolling`: slot 0 of the bool property
`Synaptics Edge Scrolling`. -/
def vertical_edge_scrolling : device_property :=
  { property_name := "Synaptics Edge Scrolling", property_type := "bool", item := 0 }

/-- `horizontal_edge_scrolling`: slot 1 of the bool property
`Synaptics Edge Scrolling`. -/
def horizontal_edge_scrolling : device_property :=
  { property_name := "Synaptics Edge Scrolling", property_type := "bool", item := 1 }

/-- `corner_coasting`: slot 2 of the bool property `Synaptics Edge Scrolling`. -/
def corner_coasting : device_property :=
  { property_name := "Synaptics Edge Scrolling", property_type := "bool", item := 2 }

/-- `vertical_scrolling_distance`: slot 0 of the int property
`Synaptics Scrolling Distance`. -/
def vertical_scrolling_distance : device_property :=
  { property_name := "Synaptics Scrolling Distance", property_type := "int", item := 0 }

/-- `horizontal_scrolling_distance`: slot 1 of the int property
`Synaptics Scrolling Distance`. -/
def horizontal_scrolling_distance : device_property :=
  { property_name := "Synaptics Scrolling Distance", property_type := "int", item := 1 }

/-- `coasting_speed`: slot 0 of the float property `Synaptics Coasting Speed`. -/
def coasting_speed : device_property :=
  { property_name := "Synaptics Coasting Speed", property_type := "float", item := 0 }

/-- `vertical_two_finger_scrolling`: slot 0 of the bool property
`Synaptics Two-Finger Scrolling`. -/
def vertical_two_finger_scrolling : device_property :=
  { property_name := "Synaptics Two-Finger Scrolling", property_type := "bool", item := 0 }

/-- `horizontal_two_finger_scrolling`: slot 1 of the bool property
`Synaptics Two-Finger Scrolling`. -/
def horizontal_two_finger_scrolling : device_property :=
  { property_name := "Synaptics Two-Finger Scrolling", property_type := "bool", item := 1 }

/-- `circular_scrolling`: slot 0 of the bool property
`Synaptics Circular Scrolling`. -/
def circular_scrolling : device_property :=
  { property_name := "Synaptics Circular Scrolling", property_type := "bool", item := 0 }

/-- `circular_scrolling_trigger`: slot 0 of the byte property
`Synaptics Circular Scrolling Trigger`. -/
def circular_scrolling_trigger : device_property :=
  { property_name := "Synaptics Circular Scrolling Trigger", property_type := "byte", item := 0 }

/-- `circular_scrolling_distance`: slot 0 of the float property
`Synaptics Circular Scrolling Distance`, with conversions
`convert_from_property = math.degrees`, `convert_to_property = math.radians`. -/
def circular_scrolling_distance : device_property :=
  { property_name := "Synaptics Circular Scrolling Distance", property_type := "float", item := 0,
    convert_from_property := fun v => .num (math.degrees v.toQ),
    convert_to_property := fun v => .num (math.radians v.toQ) }

/-- Names for the declared bindings of the `Touchpad` class. -/
inductive BindingName where
  | off | minimum_speed | maximum_speed | acceleration_factor
  | rt_tap_action | rb_tap_action | lt_tap_action | lb_tap_action
  | f1_tap_action | f2_tap_action | f3_tap_action
  | tap_and_drag_gesture | locked_drags | locked_drags_timeout
  | vertical_edge_scrolling | horizontal_edge_scrolling | corner_coasting
  | vertical_scrolling_distance | horizontal_scrolling_distance
  | coasting_speed
  | vertical_two_finger_scrolling | horizontal_two_finger_scrolling
  | circular_scrolling | circular_scrolling_trigger | circular_scrolling_distance
deriving DecidableEq

/-- The catalog: each declared name mapped to its descriptor instance. -/
def binding : BindingName → device_property
  | .off => off
  | .minimum_speed => minimum_speed
  | .maximum_speed => maximum_speed
  | .acceleration_factor => acceleration_factor
  | .rt_tap_action => rt_tap_action
  | .rb_tap_action => rb_tap_action
  | .lt_tap_action => lt_tap_action
  | .lb_tap_action => lb_tap_action
  | .f1_tap_action => f1_tap_action
  | .f2_tap_action => f2_tap_action
  | .f3_tap_action => f3_tap_action
  | .tap_and_drag_gesture => tap_and_drag_gesture
  | .locked_drags => locked_drags
  | .locked_drags_timeout => locked_drags_timeout
  | .vertical_edge_scrolling => vertical_edge_scrolling
  | .horizontal_edge_scrolling => horizontal_edge_scrolling
  | .corner_coasting => corner_coasting
  | .vertical_scrolling_distance => vertical_scrolling_distance
  | .horizontal_scrolling_distance => horizontal_scrolling_distance
  | .coasting_speed => coasting_speed
  | .vertical_two_finger_scrolling => vertical_two_finger_scrolling
  | .horizontal_two_finger_scrolling => horizontal_two_finger_scrolling
  | .circular_scrolling => circular_scrolling
  | .circular_scrolling_trigger => circular_scrolling_trigger
  | .circular_scrolling_distance => circular_scrolling_distance

/-- The values a binding is expected to round-trip: booleans for bool
bindings, any float for float bindings, integers for int bindings, bytes
0..255 for byte bindings; for `locked_drags_timeout` the seconds values that
are a whole number of milliseconds. -/
def validDomain (n : BindingName) (v : Value) : Bool :=
  match n, v with
  | .locked_drags_timeout, .num q => (1000 * q).den == 1
  | .locked_drags_timeout, _ => false
  | .circular_scrolling_distance, .num _ => true
  | .circular_scrolling_distance, _ => false
  | n, v =>
    match (binding n).property_type, v with
    | "bool", .bool _ => true
    | "float", .num _ => true
    | "int", .num q => q.den == 1
    | "byte", .num q => q.den == 1 && decide (0 ≤ q) && decide (q ≤ 255)
    | _, _ => false

/-- `PhysicalButtons = namedtuple('PhysicalButtons', 'left middle right')`. -/
structure PhysicalButtons where
  left : Bool
  middle : Bool
  right : Bool
deriving DecidableEq

/-- `Touchpad.capabilities`: `map(bool, self['Synaptics Capabilities'])`. -/
def capabilities (dev : Device) : Except DeviceError (List Bool) × List IOEvent :=
  match dev.getProp "Synaptics Capabilities" with
  | none => (.error .undefinedProperty, [.fetch "Synaptics Capabilities"])
  | some values =>
    (.ok (values.map (fun q => decide (q ≠ 0))), [.fetch "Synaptics Capabilities"])

/-- `Touchpad.finger_detection`: `sum(self.capabilities[3:5], 1)`. -/
def finger_detection (dev : Device) : Except DeviceError ℕ × List IOEvent :=
  ((capabilities dev).1.map (fun caps => 1 + (pyslice caps 3 5).count true),
   (capabilities dev).2)

/-- `Touchpad.buttons`: `PhysicalButtons(*self.capabilities[0:3])`; unpacking
anything other than exactly three values is a `TypeError`. -/
def buttons (dev : Device) : Except DeviceError PhysicalButtons × List IOEvent :=
  ((capabilities dev).1.bind (fun caps =>
      match pyslice caps 0 3 with
      | [l, m, r] => .ok ⟨l, m, r⟩
      | _ => .error .typeError),
   (capabilities dev).2)

/-- `Touchpad.has_pressure_detection`: `self.capabilities[5]`; indexing a
shorter list is an `IndexError` (`slotIndexOutOfRange`). -/
def has_pressure_detection (dev : Device) : Except DeviceError Bool × List IOEvent :=
  ((capabilities dev).1.bind (fun caps =>
      match caps[5]? with
      | some b => .ok b
      | none => .error .slotIndexOutOfRange),
   (capabilities dev).2)

/-- `Touchpad.has_finger_width_detection`: `self.capabilities[6]`. -/
def has_finger_width_detection (dev : Device) : Except DeviceError Bool × List IOEvent :=
  ((capabilities dev).1.bind (fun caps =>
      match caps[6]? with
      | some b => .ok b
      | none => .error .slotIndexOutOfRange),
   (capabilities dev).2)

/-- `Touchpad.has_two_finger_emulation`: `all(self.capabilities[5:7])`. -/
def has_two_finger_emulation (dev : Device) : Except DeviceError Bool × List IOEvent :=
  ((capabilities dev).1.map (fun caps => (pyslice caps 5 7).all (fun b => b)),
   (capabilities dev).2)

/-- `Touchpad.coasting`: `self.coasting_speed != 0`. -/
def coasting (dev : Device) : Except DeviceError Bool × List IOEvent :=
  ((coasting_speed.get dev).1.map (fun v => decide (v.toQ ≠ 0)),
   (coasting_speed.get dev).2)

/-- Modelled from the spec: `InputDevice.find_devices_with_property` lives in
`synaptiks/x11/input.py`, which is not part of the sources under
verification.  Per the spec it enumerates the devices of the display and
keeps those exposing the named property. -/
def find_devices_with_property (display : List Device) (name : String) : List Device :=
  display.filter (fun d => (d.getProp name).isSome)

/-- `Touchpad.find_all`: devices with the property `Synaptics Off`. -/
def find_all (display : List Device) : List Device :=
  find_devices_with_property display "Synaptics Off"

/-- `Touchpad.find_first`: `next(cls.find_all(display), None)`, raising
`NoTouchpadError` when the iterator is exhausted immediately. -/
def find_first (display : List Device) : Except DeviceError Device :=
  match find_all display with
  | [] => .error .noTouchpadError
  | d :: _ => .ok d

lemma find?_fst_map_replace (l : List (String × List RawValue)) (name name2 : String)
    (vs : List RawValue) :
    (l.map (fun p => if p.1 == name then (p.1, vs) else p)).find? (fun p => p.1 == name2) =
      (l.find? (fun p => p.1 == name2)).map (fun p => if p.1 == name then (p.1, vs) else p) := by
  induction l with
  | nil => rfl
  | cons a l ih =>
    rw [List.map_cons]
    by_cases h : (a.1 == name2) = true
    · have hfa : ((if (a.1 == name) = true then (a.1, vs) else a).1 == name2) = true := by
        by_cases h2 : (a.1 == name) = true <;> simp [h2, h]
      simp only [List.find?_cons, hfa, h, Option.map_some']
    · rw [Bool.not_eq_true] at h
      have hfa : ((if (a.1 == name) = true then (a.1, vs) else a).1 == name2) = false := by
        by_cases h2 : (a.1 == name) = true <;> simp_all
      simp only [List.find?_cons, hfa, h]
      exact ih

lemma Device.getProp_setProp_self (dev : Device) (name : String) (vs : List RawValue) :
    (dev.setProp name vs).getProp name = some vs := by
  unfold Device.setProp Device.getProp
  by_cases h : dev.props.any (fun p => p.1 == name) = true
  · rw [if_pos h, find?_fst_map_replace]
    obtain ⟨x, hx, hpx⟩ := List.any_eq_true.mp h
    have hsome : (dev.props.find? (fun p => p.1 == name)).isSome :=
      List.find?_isSome.mpr ⟨x, hx, hpx⟩
    obtain ⟨y, hy⟩ := Option.isSome_iff_exists.mp hsome
    have hy1 := List.find?_some hy
    rw [hy, Option.map_some', Option.map_some']
    simp only at hy1
    simp [hy1]
  · rw [if_neg h, List.find?_append]
    have hnone : dev.props.find? (fun p => p.1 == name) = none := by
      rw [List.find?_eq_none]
      intro x hx hpx
      exact h (List.any_eq_true.mpr ⟨x, hx, hpx⟩)
    simp [hnone]

lemma Device.getProp_setProp_ne (dev : Device) (name name2 : String) (vs : List RawValue)
    (h : name2 ≠ name) :
    (dev.setProp name vs).getProp name2 = dev.getProp name2 := by
  unfold Device.setProp Device.getProp
  by_cases ha : dev.props.any (fun p => p.1 == name) = true
  · rw [if_pos ha, find?_fst_map_replace]
    cases hf : dev.props.find? (fun p => p.1 == name2) with
    | none => simp
    | some y =>
      have hy1 := List.find?_some hf
      simp only [beq_iff_eq] at hy1
      have hyn : ¬ (y.1 = name) := by
        rw [hy1]
        exact h
      simp [hyn]
  · rw [if_neg ha, List.find?_append]
    have hone : List.find? (fun p => p.1 == name2) [(name, vs)] = none := by
      rw [List.find?_eq_none]
      intro x hx
      simp only [List.mem_singleton] at hx
      subst hx
      simp only [beq_iff_eq]
      exact fun hh => h hh.symm
    rw [hone]
    simp

lemma device_property.get_eq (p : device_property) (dev : Device) (values : List RawValue)
    (h : dev.getProp p.property_name = some values) :
    p.get dev = (match (decodeSeq p.property_type values)[p.item]? with
      | none => (.error .slotIndexOutOfRange, [.fetch p.property_name])
      | some v => (.ok (p.convert_from_property v), [.fetch p.property_name])) := by
  unfold device_property.get
  rw [h]

lemma device_property.set_eq (p : device_property) (dev : Device) (values : List RawValue)
    (v : Value) (h : dev.getProp p.property_name = some values)
    (hlt : p.item < values.length) :
    p.set dev v = (.ok (),
      [.fetch p.property_name,
       .write p.property_type p.property_name
         (values.set p.item (p.convert_to_property v).toQ)]) := by
  unfold device_property.set
  rw [h]
  simp only [hlt, if_true]

lemma device_property.setState_eq (p : device_property) (dev : Device)
    (values : List RawValue) (v : Value) (h : dev.getProp p.property_name = some values)
    (hlt : p.item < values.length) :
    p.setState dev v =
      dev.setProp p.property_name (values.set p.item (p.convert_to_property v).toQ) := by
  unfold device_property.setState
  rw [device_property.set_eq p dev values v h hlt]
  rfl

lemma decodeSeq_set_getElem (ptype : String) (values : List RawValue) (i : ℕ) (q : RawValue)
    (hlt : i < values.length) :
    (decodeSeq ptype (values.set i q))[i]? = some (decode1 ptype q) := by
  unfold decodeSeq
  rw [List.getElem?_map, List.getElem?_set_eq_of_lt q hlt]
  rfl

/-- Setting a binding and reading it back yields the composed conversion of
the written value, viewed through the wire decoding. -/
lemma set_get_roundtrip (p : device_property) (dev : Device) (values : List RawValue)
    (v : Value) (h : dev.getProp p.property_name = some values)
    (hlt : p.item < values.length) :
    (p.get (p.setState dev v)).1 =
      .ok (p.convert_from_property (decode1 p.property_type (p.convert_to_property v).toQ)) := by
  rw [device_property.setState_eq p dev values v h hlt]
  rw [device_property.get_eq p _ (values.set p.item (p.convert_to_property v).toQ)
        (Device.getProp_setProp_self dev p.property_name _)]
  rw [decodeSeq_set_getElem p.property_type values p.item _ hlt]

lemma pytrunc_cast_eq (q : ℚ) (h : q.den = 1) : (pytrunc q : ℚ) = q := by
  unfold pytrunc Rat.floor Rat.ceil
  simp only [h, if_pos, ite_self]
  exact (Rat.den_eq_one_iff q).mp h

/-- For every declared binding, converting a domain value to the wire and
reading it back through the wire decoding recovers the value, on the
binding's valid domain. -/
lemma binding_conv_roundtrip (n : BindingName) (v : Value) (h : validDomain n v = true) :
    (binding n).convert_from_property
      (decode1 (binding n).property_type ((binding n).convert_to_property v).toQ) = v := by
  cases n
  case locked_drags_timeout =>
    rcases v with q | b
    · have hq : (1000 * q).den = 1 := by simpa [validDomain] using h
      show Value.num ((pytrunc (1000 * q) : ℚ) / 1000) = Value.num q
      rw [pytrunc_cast_eq _ hq]
      congr 1
      field_simp
    · exact Bool.noConfusion h
  case circular_scrolling_distance =>
    rcases v with q | b
    · show Value.num (math.degrees (math.radians q)) = Value.num q
      unfold math.degrees math.radians
      congr 1
      have hpi : pyPi ≠ 0 := by norm_num [pyPi]
      field_simp
    · exact Bool.noConfusion h
  all_goals rcases v with q | b
  all_goals first
    | exact Bool.noConfusion h
    | (cases b <;> rfl)
    | rfl

/-- A successful set presupposes that the device reports the property and
that the slot index is within the reported sequence. -/
lemma set_ok_inv (p : device_property) (dev : Device) (v : Value)
    (h : (p.set dev v).1 = .ok ()) :
    ∃ values, dev.getProp p.property_name = some values ∧ p.item < values.length := by
  unfold device_property.set at h
  cases hg : dev.getProp p.property_name with
  | none =>
    rw [hg] at h
    exact absurd h (by simp)
  | some values =>
    rw [hg] at h
    by_cases hlt : p.item < values.length
    · exact ⟨values, rfl, hlt⟩
    · simp [hlt] at h

/-- C1: for every declared binding, performing the set operation with a
domain value v and then the get operation on the same binding returns v, for
every v in the binding's valid domain (floats are modelled as exact
rationals, absorbing the claimed floating-point tolerance); the composed
conversion toDomain(toRaw(v)) equals v, including for the two bindings with
non-identity conversions (lockedDragsTimeout, circularScrollingDistance). -/
theorem C1_set_get_roundtrip (n : BindingName) (dev : Device) (v : Value)
    (hdom : validDomain n v = true)
    (hset : ((binding n).set dev v).1 = .ok ()) :
    ((binding n).get ((binding n).setState dev v)).1 = .ok v := by
  obtain ⟨values, hg, hlt⟩ := set_ok_inv _ _ _ hset
  rw [set_get_roundtrip _ _ values v hg hlt, binding_conv_roundtrip n v hdom]

/-- C1 witness: round trip of the byte value 1 through the `off` binding on
a concrete device. -/
theorem C1_set_get_roundtrip_witness :
    ((binding .off).get ((binding .off).setState ⟨[("Synaptics Off", [0])]⟩ (.num 1))).1 =
      .ok (.num 1) :=
  C1_set_get_roundtrip .off ⟨[("Synaptics Off", [0])]⟩ (.num 1) (by decide) (by decide)

/-- C2: a set on slot i writes back exactly the fetched sequence with only
slot i replaced by the converted value; every other slot keeps its fetched
value, and a sibling binding of the same property reads the same value after
the write as before it. -/
theorem C2_sibling_slots_preserved (p p2 : device_property) (dev : Device) (v : Value)
    (values : List RawValue)
    (hvals : dev.getProp p.property_name = some values)
    (hlt : p.item < values.length)
    (hname : p2.property_name = p.property_name)
    (hitem : p2.item ≠ p.item) :
    ((p.setState dev v).getProp p.property_name =
        some (values.set p.item (p.convert_to_property v).toQ)) ∧
    (∀ j, j ≠ p.item →
       (values.set p.item (p.convert_to_property v).toQ)[j]? = values[j]?) ∧
    (p2.get (p.setState dev v)).1 = (p2.get dev).1 := by
  rw [device_property.setState_eq p dev values v hvals hlt]
  refine ⟨Device.getProp_setProp_self _ _ _,
          fun j hj => List.getElem?_set_ne (fun hh => hj hh.symm), ?_⟩
  have hslot : (values.set p.item (p.convert_to_property v).toQ)[p2.item]? =
      values[p2.item]? :=
    List.getElem?_set_ne (fun hh => hitem hh.symm)
  have h1 : (dev.setProp p.property_name
      (values.set p.item (p.convert_to_property v).toQ)).getProp p2.property_name =
      some (values.set p.item (p.convert_to_property v).toQ) := by
    rw [hname]
    exact Device.getProp_setProp_self _ _ _
  have h2 : dev.getProp p2.property_name = some values := by
    rw [hname]
    exact hvals
  rw [device_property.get_eq p2 _ _ h1, device_property.get_eq p2 dev values h2]
  unfold decodeSeq
  rw [List.getElem?_map, List.getElem?_map, hslot]

/-- C2 witness: writing slot 0 of the three-slot move-speed property leaves
slots 1 and 2 as fetched, and the sibling `maximum_speed` binding reads its
prior value. -/
theorem C2_sibling_slots_preserved_witness :
    ((minimum_speed.setState ⟨[("Synaptics Move Speed", [1, 2, 3])]⟩ (.num 5)).getProp
        "Synaptics Move Speed" =
      some ([1, 2, 3].set 0 (minimum_speed.convert_to_property (.num 5)).toQ)) ∧
    (([1, 2, 3].set 0 (minimum_speed.convert_to_property (.num 5)).toQ)[1]? =
      [(1 : ℚ), 2, 3][1]?) ∧
    (maximum_speed.get (minimum_speed.setState ⟨[("Synaptics Move Speed", [1, 2, 3])]⟩
        (.num 5))).1 =
      (maximum_speed.get ⟨[("Synaptics Move Speed", [1, 2, 3])]⟩).1 := by
  have h := C2_sibling_slots_preserved minimum_speed maximum_speed
    ⟨[("Synaptics Move Speed", [1, 2, 3])]⟩ (.num 5) [1, 2, 3]
    (by decide) (by decide) rfl (by decide)
  exact ⟨h.1, h.2.1 1 (by decide), h.2.2⟩

/-- Whether an operation outcome is a success. -/
def isOkE : Except ε α → Bool
  | .ok _ => true
  | .error _ => false

lemma get_slot_error_iff (p : device_property) (dev : Device) (values : List RawValue)
    (hvals : dev.getProp p.property_name = some values) :
    ((p.get dev).1 = .error .slotIndexOutOfRange ↔ values.length ≤ p.item) := by
  rw [device_property.get_eq p dev values hvals]
  by_cases hlt : p.item < values.length
  · have hlt2 : p.item < (decodeSeq p.property_type values).length := by
      simpa [decodeSeq] using hlt
    rw [List.getElem?_eq_getElem hlt2]
    simp [Nat.not_le.mpr hlt]
  · have hnone : (decodeSeq p.property_type values)[p.item]? = none := by
      rw [List.getElem?_eq_none_iff]
      simpa [decodeSeq] using Nat.not_lt.mp hlt
    rw [hnone]
    simp [Nat.not_lt.mp hlt]

lemma set_slot_error_iff (p : device_property) (dev : Device) (values : List RawValue)
    (v : Value) (hvals : dev.getProp p.property_name = some values) :
    ((p.set dev v).1 = .error .slotIndexOutOfRange ↔ values.length ≤ p.item) := by
  unfold device_property.set
  rw [hvals]
  by_cases hlt : p.item < values.length
  · simp [hlt, Nat.not_le.mpr hlt]
  · simp [hlt, Nat.not_lt.mp hlt]

/-- C3: on a device that reports a slot sequence for the binding's property,
get and set fail with slotIndexOutOfRange exactly when the sequence length
is at most the binding's slot index; when the slot index is within the
sequence, get succeeds and set succeeds. -/
theorem C3_slot_index_out_of_range (p : device_property) (dev : Device)
    (values : List RawValue) (v : Value)
    (hvals : dev.getProp p.property_name = some values) :
    ((p.get dev).1 = .error .slotIndexOutOfRange ↔ values.length ≤ p.item) ∧
    ((p.set dev v).1 = .error .slotIndexOutOfRange ↔ values.length ≤ p.item) ∧
    (p.item < values.length →
      isOkE (p.get dev).1 = true ∧ (p.set dev v).1 = .ok ()) := by
  refine ⟨get_slot_error_iff p dev values hvals, set_slot_error_iff p dev values v hvals, ?_⟩
  intro hlt
  constructor
  · rw [device_property.get_eq p dev values hvals]
    have hlt2 : p.item < (decodeSeq p.property_type values).length := by
      simpa [decodeSeq] using hlt
    rw [List.getElem?_eq_getElem hlt2]
    rfl
  · rw [device_property.set_eq p dev values v hvals hlt]

/-- C3 witness: on a device reporting an empty sequence for `Synaptics Off`,
both get and set of the `off` binding (slot 0) fail with
slotIndexOutOfRange, and the in-range direction holds vacuously. -/
theorem C3_slot_index_out_of_range_witness :
    ((off.get ⟨[("Synaptics Off", [])]⟩).1 = .error .slotIndexOutOfRange ↔
      (List.length ([] : List RawValue)) ≤ off.item) ∧
    ((off.set ⟨[("Synaptics Off", [])]⟩ (.num 1)).1 = .error .slotIndexOutOfRange ↔
      (List.length ([] : List RawValue)) ≤ off.item) ∧
    (off.item < (List.length ([] : List RawValue)) →
      isOkE (off.get ⟨[("Synaptics Off", [])]⟩).1 = true ∧
      (off.set ⟨[("Synaptics Off", [])]⟩ (.num 1)).1 = .ok ()) :=
  C3_slot_index_out_of_range off ⟨[("Synaptics Off", [])]⟩ [] (.num 1) (by decide)

/-- C4: find_first fails with NoTouchpadError exactly when no device of the
display exposes the touchpad-identifying property `Synaptics Off`; when the
enumeration is nonempty it returns its first element without error. -/
theorem C4_find_first_behavior (display : List Device) :
    (find_all display = [] → find_first display = .error .noTouchpadError) ∧
    (∀ d rest, find_all display = d :: rest → find_first display = .ok d) ∧
    (find_all display = [] ↔ ∀ d ∈ display, d.getProp "Synaptics Off" = none) := by
  refine ⟨?_, ?_, ?_⟩
  · intro h
    unfold find_first
    rw [h]
  · intro d rest h
    unfold find_first
    rw [h]
  · unfold find_all find_devices_with_property
    rw [List.filter_eq_nil_iff]
    constructor
    · intro h d hd
      have := h d hd
      simpa [Option.not_isSome_iff_eq_none] using this
    · intro h d hd
      simp [h d hd]

/-- C4 witness: the empty display fails with NoTouchpadError; a display with
two touchpads yields the first in enumeration order. -/
theorem C4_find_first_behavior_witness :
    find_first [] = .error .noTouchpadError ∧
    find_first [⟨[("Synaptics Off", [0])]⟩, ⟨[("Synaptics Off", [1])]⟩] =
      .ok ⟨[("Synaptics Off", [0])]⟩ :=
  ⟨(C4_find_first_behavior []).1 (by decide),
   (C4_find_first_behavior [⟨[("Synaptics Off", [0])]⟩, ⟨[("Synaptics Off", [1])]⟩]).2.1
     ⟨[("Synaptics Off", [0])]⟩ [⟨[("Synaptics Off", [1])]⟩] (by decide)⟩

/-- C5: setting the domain value 2.5 seconds through lockedDragsTimeout
writes the integer 2500 milliseconds into raw slot 0 of the timeout
property, and getting the binding when that slot holds 2500 returns 2.5. -/
theorem C5_locked_drags_timeout_ms :
    (locked_drags_timeout.set ⟨[("Synaptics Locked Drags Timeout", [0])]⟩ (.num (5 / 2))).2 =
      [.fetch "Synaptics Locked Drags Timeout",
       .write "int" "Synaptics Locked Drags Timeout" [2500]] ∧
    locked_drags_timeout.setState ⟨[("Synaptics Locked Drags Timeout", [0])]⟩ (.num (5 / 2)) =
      ⟨[("Synaptics Locked Drags Timeout", [2500])]⟩ ∧
    (locked_drags_timeout.get ⟨[("Synaptics Locked Drags Timeout", [2500])]⟩).1 =
      .ok (.num (5 / 2)) := by
  refine ⟨?_, ?_, ?_⟩ <;> with_unfolding_all rfl

/-- C6: for a 7-element capabilities sequence, fingerDetection equals 1 plus
the number of true values among capability indices 3 and 4; the literal sum
is kept even when bit 4 is true while bit 3 is false. -/
theorem C6_finger_detection_count (dev : Device) (c0 c1 c2 c3 c4 c5 c6 : Bool)
    (hcaps : (capabilities dev).1 = .ok [c0, c1, c2, c3, c4, c5, c6]) :
    (finger_detection dev).1 = .ok (1 + (c3.toNat + c4.toNat)) := by
  unfold finger_detection
  simp only [hcaps]
  cases c3 <;> cases c4 <;> rfl

/-- C6 witness: capabilities [T,T,T,T,F,F,F] give fingerDetection 2. -/
theorem C6_finger_detection_count_witness :
    (finger_detection ⟨[("Synaptics Capabilities", [1, 1, 1, 1, 0, 0, 0])]⟩).1 = .ok 2 :=
  C6_finger_detection_count ⟨[("Synaptics Capabilities", [1, 1, 1, 1, 0, 0, 0])]⟩
    true true true true false false false (by decide)

/-- C7: for a 7-element capabilities sequence, hasTwoFingerEmulation is true
exactly when capability indices 5 (pressure) and 6 (finger width) are both
true. -/
theorem C7_has_two_finger_emulation_and (dev : Device) (c0 c1 c2 c3 c4 c5 c6 : Bool)
    (hcaps : (capabilities dev).1 = .ok [c0, c1, c2, c3, c4, c5, c6]) :
    (has_two_finger_emulation dev).1 = .ok (c5 && c6) := by
  unfold has_two_finger_emulation
  simp only [hcaps]
  cases c5 <;> cases c6 <;> rfl

/-- C7 witness: with pressure detection but no width detection, two-finger
emulation is reported false. -/
theorem C7_has_two_finger_emulation_and_witness :
    (has_two_finger_emulation ⟨[("Synaptics Capabilities", [1, 1, 1, 0, 0, 1, 0])]⟩).1 =
      .ok false :=
  C7_has_two_finger_emulation_and ⟨[("Synaptics Capabilities", [1, 1, 1, 0, 0, 1, 0])]⟩
    true true true false false true false (by decide)

/-- C8: constructing a binding with a wire type outside the four recognized
kinds fails with invalidWireType at construction time (the constructor takes
no device and emits no I/O); with any recognized wire type it succeeds. -/
theorem C8_invalid_wire_type (name ptype : String) (i : ℕ) :
    (ptype ∈ device_property.PROPERTY_TYPES →
      device_property.init name ptype i =
        .ok { property_name := name, property_type := ptype, item := i }) ∧
    (ptype ∉ device_property.PROPERTY_TYPES →
      device_property.init name ptype i = .error .invalidWireType) := by
  constructor
  · intro h
    unfold device_property.init
    rw [if_pos h]
  · intro h
    unfold device_property.init
    rw [if_neg h]

/-- C8 witness: the recognized type byte constructs, the unrecognized type
word fails. -/
theorem C8_invalid_wire_type_witness :
    device_property.init "Synaptics Off" "byte" 0 =
      .ok { property_name := "Synaptics Off", property_type := "byte", item := 0 } ∧
    device_property.init "Synaptics Off" "word" 0 = .error .invalidWireType :=
  ⟨(C8_invalid_wire_type "Synaptics Off" "byte" 0).1 (by decide),
   (C8_invalid_wire_type "Synaptics Off" "word" 0).2 (by decide)⟩

/-- C9: for a binding of wire type bool, get returns toDomain applied to the
boolean coercion of the raw value at the binding's slot: any nonzero raw
value reads as true, zero as false, regardless of magnitude. -/
theorem C9_bool_wire_coercion (p : device_property) (dev : Device) (values : List RawValue)
    (q : RawValue)
    (hty : p.property_type = "bool")
    (hvals : dev.getProp p.property_name = some values)
    (hq : values[p.item]? = some q) :
    (p.get dev).1 = .ok (p.convert_from_property (.bool (decide (q ≠ 0)))) := by
  rw [device_property.get_eq p dev values hvals]
  have hdec : (decodeSeq p.property_type values)[p.item]? =
      some (.bool (decide (q ≠ 0))) := by
    unfold decodeSeq
    rw [List.getElem?_map, hq]
    simp [decode1, hty]
  rw [hdec]

/-- C9 witness: the bool binding `locked_drags` reads the raw value 7 as
true. -/
theorem C9_bool_wire_coercion_witness :
    (locked_drags.get ⟨[("Synaptics Locked Drags", [7])]⟩).1 =
      .ok (locked_drags.convert_from_property (.bool (decide ((7 : RawValue) ≠ 0)))) :=
  C9_bool_wire_coercion locked_drags ⟨[("Synaptics Locked Drags", [7])]⟩ [7] 7
    rfl (by decide) (by decide)

/-- A trace containing no write event. -/
def readOnlyTrace (t : List IOEvent) : Bool := t.all (fun e => ! e.isWrite)

lemma applyTrace_readOnly (dev : Device) (t : List IOEvent)
    (h : readOnlyTrace t = true) : applyTrace dev t = dev := by
  induction t with
  | nil => rfl
  | cons e t ih =>
    simp only [readOnlyTrace, List.all_cons, Bool.and_eq_true] at h
    cases e with
    | fetch name => exact ih (by simpa [readOnlyTrace] using h.2)
    | write a b c => simp [IOEvent.isWrite] at h

lemma get_trace (p : device_property) (dev : Device) :
    (p.get dev).2 = [.fetch p.property_name] := by
  cases hg : dev.getProp p.property_name with
  | none =>
    unfold device_property.get
    rw [hg]
  | some values =>
    rw [device_property.get_eq p dev values hg]
    cases (decodeSeq p.property_type values)[p.item]? <;> rfl

lemma capabilities_trace (dev : Device) :
    (capabilities dev).2 = [.fetch "Synaptics Capabilities"] := by
  unfold capabilities
  cases dev.getProp "Synaptics Capabilities" <;> rfl

/-- C10: every read is side-effect free: the get of every binding, and every
derived read-only property, emits a trace containing no write event, so
applying the trace leaves every slot of every device property unchanged. -/
theorem C10_reads_perform_no_write (p : device_property) (dev : Device) :
    (readOnlyTrace (p.get dev).2 = true ∧ applyTrace dev (p.get dev).2 = dev) ∧
    (readOnlyTrace (capabilities dev).2 = true ∧
      applyTrace dev (capabilities dev).2 = dev) ∧
    (readOnlyTrace (finger_detection dev).2 = true ∧
      applyTrace dev (finger_detection dev).2 = dev) ∧
    (readOnlyTrace (buttons dev).2 = true ∧ applyTrace dev (buttons dev).2 = dev) ∧
    (readOnlyTrace (has_pressure_detection dev).2 = true ∧
      applyTrace dev (has_pressure_detection dev).2 = dev) ∧
    (readOnlyTrace (has_finger_width_detection dev).2 = true ∧
      applyTrace dev (has_finger_width_detection dev).2 = dev) ∧
    (readOnlyTrace (has_two_finger_emulation dev).2 = true ∧
      applyTrace dev (has_two_finger_emulation dev).2 = dev) ∧
    (readOnlyTrace (coasting dev).2 = true ∧ applyTrace dev (coasting dev).2 = dev) := by
  have hro : ∀ t, readOnlyTrace t = true →
      readOnlyTrace t = true ∧ applyTrace dev t = dev :=
    fun t h => ⟨h, applyTrace_readOnly dev t h⟩
  have hg : readOnlyTrace (p.get dev).2 = true := by
    rw [get_trace]
    rfl
  have hc : readOnlyTrace (capabilities dev).2 = true := by
    rw [capabilities_trace]
    rfl
  have hcs : readOnlyTrace (coasting_speed.get dev).2 = true := by
    rw [get_trace]
    rfl
  exact ⟨hro _ hg, hro _ hc, hro _ hc, hro _ hc, hro _ hc, hro _ hc, hro _ hc, hro _ hcs⟩

end Synaptiks
